import Mathlib

/-!
Shallow embedding of `src/mcp_server/server.py` (an MCP tool server with
calculator, text-analysis, file-listing, weather, flight and airport tools)
and proofs about the claims made by the specification.

Modelling conventions:
* Python numbers coming from JSON payloads and from the calculator are
  modelled exactly: `int` as `Int`, `float` as an exact rational (`Rat`).
  Binary floating point rounding is not modelled; no theorem below depends
  on a value that would be perturbed by it.
* Fallible Python code is modelled with `Except String`; a raised exception
  is an `Except.error` carrying (a model of) `str(e)`.
* The process environment, the filesystem and the three HTTP providers are
  modelled as an explicit `Env` record passed to each handler; every
  outbound network request a handler issues is recorded in a trace
  (`List NetCall`) returned next to the handler's output.
-/

attribute [local semireducible] Rat.mul Rat.inv Rat.add Rat.sub Rat.ofScientific

/-- One `types.TextContent(type="text", text=...)` value. -/
structure TextContent where
  type : String
  text : String
deriving DecidableEq, Repr

/-- Build a text content block, as every handler in the source does. -/
def textContent (s : String) : TextContent := ⟨"text", s⟩

/-- A JSON-ish argument value: the tools only declare string, integer and
boolean parameters. -/
inductive PyVal where
  | str (s : String)
  | int (i : Int)
  | bool (b : Bool)
deriving DecidableEq, Repr

/-- The argument map passed to a tool call (a Python dict). -/
abbrev Args := List (String × PyVal)

/-- Dict lookup: first binding of the key, if any. -/
def getArg (args : Args) (k : String) : Option PyVal :=
  (args.find? (fun p => p.1 == k)).map (fun p => p.2)

/-- Model of `arguments.get(k, default)` for a string-typed parameter.
Arguments are modelled as typed values; a call supplying a value of another
Python type than the schema declares is outside the model. -/
def getStr (args : Args) (k : String) (d : String) : String :=
  match getArg args k with
  | some (.str s) => s
  | _ => d

/-- Model of `arguments.get(k, default)` for an integer-typed parameter. -/
def getInt (args : Args) (k : String) (d : Int) : Int :=
  match getArg args k with
  | some (.int i) => i
  | _ => d

/-- Model of `arguments.get(k, default)` for a boolean-typed parameter. -/
def getBool (args : Args) (k : String) (d : Bool) : Bool :=
  match getArg args k with
  | some (.bool b) => b
  | _ => d

/-! ## Python numbers and the calculator's `eval`

`handle_calculator` first checks a character whitelist and then calls the
Python builtin `eval` on the expression.  Restricted to the whitelist
(digits, `+ - * / ( ) . %`, spaces) the reachable fragment of `eval` is
arithmetic over `int` and `float` with the operators
`+ - * / // % **` (the multi-character operators `//` and `**` are spelled
with whitelisted characters), unary signs and parentheses.  We embed that
fragment: a tokenizer and a recursive-descent parser/evaluator following
Python's grammar and precedence.  Exception messages mirror CPython's;
`SyntaxError` texts are abstracted to "invalid syntax". -/

/-- A Python number: `int`, or `float` modelled as an exact rational. -/
inductive PyNum where
  | int (i : Int)
  | float (q : Rat)
deriving DecidableEq, Repr

/-- Numeric value of a `PyNum`. -/
def PyNum.toRat : PyNum → Rat
  | .int i => (i : Rat)
  | .float q => q

/-- Whether a value is a Python `float`. -/
def PyNum.isFloat : PyNum → Bool
  | .int _ => false
  | .float _ => true

/-- Python `str()` of a number.  Integers render exactly as in Python;
for floats, an integral value renders as `n.0` and the (unused by any
theorem below) non-integral case is abstracted by the rational notation. -/
def pyNumRepr : PyNum → String
  | .int i => toString i
  | .float q => if q.den = 1 then toString q.num ++ ".0" else toString q

/-- Python `+` on numbers. -/
def pyAdd (a b : PyNum) : PyNum :=
  match a, b with
  | .int x, .int y => .int (x + y)
  | _, _ => .float (a.toRat + b.toRat)

/-- Python binary `-` on numbers. -/
def pySub (a b : PyNum) : PyNum :=
  match a, b with
  | .int x, .int y => .int (x - y)
  | _, _ => .float (a.toRat - b.toRat)

/-- Python `*` on numbers. -/
def pyMul (a b : PyNum) : PyNum :=
  match a, b with
  | .int x, .int y => .int (x * y)
  | _, _ => .float (a.toRat * b.toRat)

/-- Python true division `/`: always a float; division by zero raises. -/
def pyDiv (a b : PyNum) : Except String PyNum :=
  if b.toRat = 0 then
    .error (if a.isFloat || b.isFloat then "float division by zero" else "division by zero")
  else
    .ok (.float (a.toRat / b.toRat))

/-- Python floor division `//`. -/
def pyFloorDiv (a b : PyNum) : Except String PyNum :=
  match a, b with
  | .int x, .int y =>
      if y = 0 then .error "integer division or modulo by zero"
      else .ok (.int (Int.fdiv x y))
  | _, _ =>
      if b.toRat = 0 then .error "float floor division by zero"
      else .ok (.float ((⌊a.toRat / b.toRat⌋ : Int) : Rat))

/-- Python modulo `%` (sign follows the divisor). -/
def pyMod (a b : PyNum) : Except String PyNum :=
  match a, b with
  | .int x, .int y =>
      if y = 0 then .error "integer division or modulo by zero"
      else .ok (.int (Int.fmod x y))
  | _, _ =>
      if b.toRat = 0 then .error "float modulo"
      else .ok (.float (a.toRat - b.toRat * ((⌊a.toRat / b.toRat⌋ : Int) : Rat)))

/-- Python `**`.  A negative integer exponent promotes to float; a float
exponent with a non-integral value would produce an irrational result,
which the exact-rational model cannot represent — that case is mapped to a
model-level error (it is reachable only through expressions no claim
mentions, and it flows into the same caught-exception path). -/
def pyPow (a b : PyNum) : Except String PyNum :=
  match a, b with
  | .int x, .int y =>
      if 0 ≤ y then .ok (.int (x ^ y.toNat))
      else if x = 0 then .error "0.0 cannot be raised to a negative power"
      else .ok (.float ((x : Rat) ^ y))
  | _, _ =>
      let qa := a.toRat
      let qb := b.toRat
      if qb.den = 1 then
        if qa = 0 ∧ qb.num < 0 then .error "0.0 cannot be raised to a negative power"
        else .ok (.float (qa ^ qb.num))
      else .error "non-integral float exponent outside the rational model"

/-- Python unary `-`. -/
def pyNeg : PyNum → PyNum
  | .int i => .int (-i)
  | .float q => .float (-q)

/-- Tokens of the whitelisted expression language. -/
inductive Tok where
  | num (v : PyNum)
  | plus | minus | star | slash | dstar | dslash | percent | lpar | rpar
deriving DecidableEq, Repr

/-- Read a maximal run of decimal digits. -/
def readDigits : List Char → List Char × List Char
  | [] => ([], [])
  | c :: cs =>
      if c.isDigit then
        let p := readDigits cs
        (c :: p.1, p.2)
      else ([], c :: cs)

/-- Numeric value of a digit run. -/
def digitsToNat (ds : List Char) : Nat :=
  ds.foldl (fun acc c => acc * 10 + (c.toNat - '0'.toNat)) 0

/-- Value of a float literal built from integer digits and fraction digits. -/
def floatLit (ip fp : List Char) : PyNum :=
  .float ((digitsToNat ip : Rat) + (digitsToNat fp : Rat) / ((10 : Rat) ^ fp.length))

/-- Python 3 rejects decimal integer literals with leading zeros
(except a run of zeros itself). -/
def badIntLit (ds : List Char) : Bool :=
  match ds with
  | '0' :: _ :: _ => !(ds.all (fun c => c == '0'))
  | _ => false

/-- Tokenize a whitelisted expression.  The fuel argument strictly
decreases on every call; it is chosen large enough by `pyEval`. -/
def tokenize : Nat → List Char → Except String (List Tok)
  | 0, _ => .error "invalid syntax"
  | _ + 1, [] => .ok []
  | fuel + 1, c :: cs =>
      if c = ' ' then tokenize fuel cs
      else if c = '+' then (tokenize fuel cs).map (Tok.plus :: ·)
      else if c = '-' then (tokenize fuel cs).map (Tok.minus :: ·)
      else if c = '%' then (tokenize fuel cs).map (Tok.percent :: ·)
      else if c = '(' then (tokenize fuel cs).map (Tok.lpar :: ·)
      else if c = ')' then (tokenize fuel cs).map (Tok.rpar :: ·)
      else if c = '*' then
        match cs with
        | '*' :: cs2 => (tokenize fuel cs2).map (Tok.dstar :: ·)
        | _ => (tokenize fuel cs).map (Tok.star :: ·)
      else if c = '/' then
        match cs with
        | '/' :: cs2 => (tokenize fuel cs2).map (Tok.dslash :: ·)
        | _ => (tokenize fuel cs).map (Tok.slash :: ·)
      else if c.isDigit || c = '.' then
        let p := readDigits (c :: cs)
        match p.2 with
        | '.' :: r2 =>
            let q := readDigits r2
            if p.1 = [] ∧ q.1 = [] then .error "invalid syntax"
            else (tokenize fuel q.2).map (Tok.num (floatLit p.1 q.1) :: ·)
        | r1 =>
            if badIntLit p.1 then .error "invalid syntax"
            else (tokenize fuel r1).map (Tok.num (.int (digitsToNat p.1 : Int)) :: ·)
      else .error "invalid syntax"

mutual

/-- Parse and evaluate an additive expression (`term (('+'|'-') term)*`). -/
def parseExpr : Nat → List Tok → Except String (PyNum × List Tok)
  | 0, _ => .error "invalid syntax"
  | fuel + 1, ts => do
      let p ← parseTerm fuel ts
      parseExprLoop fuel p.1 p.2

/-- Fold further `+`/`-` operands onto an accumulated value. -/
def parseExprLoop : Nat → PyNum → List Tok → Except String (PyNum × List Tok)
  | 0, _, _ => .error "invalid syntax"
  | fuel + 1, acc, ts =>
      match ts with
      | .plus :: r => do
          let p ← parseTerm fuel r
          parseExprLoop fuel (pyAdd acc p.1) p.2
      | .minus :: r => do
          let p ← parseTerm fuel r
          parseExprLoop fuel (pySub acc p.1) p.2
      | _ => .ok (acc, ts)

/-- Parse and evaluate a multiplicative expression
(`unary (('*'|'/'|'//'|'%') unary)*`). -/
def parseTerm : Nat → List Tok → Except String (PyNum × List Tok)
  | 0, _ => .error "invalid syntax"
  | fuel + 1, ts => do
      let p ← parseUnary fuel ts
      parseTermLoop fuel p.1 p.2

/-- Fold further `*`, `/`, `//`, `%` operands onto an accumulated value. -/
def parseTermLoop : Nat → PyNum → List Tok → Except String (PyNum × List Tok)
  | 0, _, _ => .error "invalid syntax"
  | fuel + 1, acc, ts =>
      match ts with
      | .star :: r => do
          let p ← parseUnary fuel r
          parseTermLoop fuel (pyMul acc p.1) p.2
      | .slash :: r => do
          let p ← parseUnary fuel r
          let v ← pyDiv acc p.1
          parseTermLoop fuel v p.2
      | .dslash :: r => do
          let p ← parseUnary fuel r
          let v ← pyFloorDiv acc p.1
          parseTermLoop fuel v p.2
      | .percent :: r => do
          let p ← parseUnary fuel r
          let v ← pyMod acc p.1
          parseTermLoop fuel v p.2
      | _ => .ok (acc, ts)

/-- Parse a unary expression (`('+'|'-')* power`); as in Python,
`-2**2 = -(2**2)`. -/
def parseUnary : Nat → List Tok → Except String (PyNum × List Tok)
  | 0, _ => .error "invalid syntax"
  | fuel + 1, ts =>
      match ts with
      | .plus :: r => parseUnary fuel r
      | .minus :: r => do
          let p ← parseUnary fuel r
          .ok (pyNeg p.1, p.2)
      | _ => parsePower fuel ts

/-- Parse a power expression (`atom ('**' unary)?`, right associative). -/
def parsePower : Nat → List Tok → Except String (PyNum × List Tok)
  | 0, _ => .error "invalid syntax"
  | fuel + 1, ts => do
      let p ← parseAtom fuel ts
      match p.2 with
      | .dstar :: r2 => do
          let q ← parseUnary fuel r2
          let v ← pyPow p.1 q.1
          .ok (v, q.2)
      | _ => .ok p

/-- Parse an atom: a number literal or a parenthesised expression. -/
def parseAtom : Nat → List Tok → Except String (PyNum × List Tok)
  | 0, _ => .error "invalid syntax"
  | fuel + 1, ts =>
      match ts with
      | .num v :: r => .ok (v, r)
      | .lpar :: r => do
          let p ← parseExpr fuel r
          match p.2 with
          | .rpar :: r3 => .ok (p.1, r3)
          | _ => .error "invalid syntax"
      | _ => .error "invalid syntax"

end

/-- Model of the Python `eval` call reachable from `handle_calculator`
after the whitelist check: tokenize, parse, evaluate; trailing tokens are
a syntax error. -/
def pyEval (e : String) : Except String PyNum := do
  let ts ← tokenize (e.length + 1) e.data
  let p ← parseExpr (4 * ts.length + 16) ts
  match p.2 with
  | [] => .ok p.1
  | _ => .error "invalid syntax"

/-- The calculator's character whitelist (`allowed_chars` in the source). -/
def allowed_chars : List Char := "0123456789+-*/().% ".data

/-- Embedding of `handle_calculator` (server.py lines 197-228).  Pure
handlers return their content blocks next to an (empty) network trace so
that every handler has the same shape. -/
def handle_calculator (arguments : Args) : List TextContent :=
  let expression := getStr arguments "expression" ""
  if expression = "" then
    [textContent "Error: No expression provided"]
  else if !(expression.data.all (fun c => allowed_chars.contains c)) then
    [textContent "Error: Expression contains invalid characters"]
  else
    match pyEval expression with
    | .ok result =>
        [textContent ("Result: " ++ expression ++ " = " ++ pyNumRepr result)]
    | .error e =>
        [textContent ("Error calculating \x27" ++ expression ++ "\x27: " ++ e)]


/-! ## String helpers shared by the handlers -/

/-- Characters Python's `str.split()` / `str.strip()` treat as whitespace. -/
def isPyWhitespace (c : Char) : Bool :=
  c == ' ' || c == '\t' || c == '\n' || c == '\r' || c == '\x0b' || c == '\x0c'

/-- Worker for `pySplit`: split at whitespace runs, accumulating the
current (reversed) token. -/
def splitWs (acc : List Char) : List Char → List String
  | [] => if acc.isEmpty then [] else [String.mk acc.reverse]
  | c :: cs =>
      if isPyWhitespace c then
        if acc.isEmpty then splitWs [] cs else String.mk acc.reverse :: splitWs [] cs
      else splitWs (c :: acc) cs

/-- Model of Python `str.split()` with no separator: the maximal
whitespace-free tokens, with no empty tokens. -/
def pySplit (s : String) : List String := splitWs [] s.data

/-- Model of Python `str.upper()` (ASCII case mapping suffices here). -/
def pyUpper (s : String) : String := String.mk (s.data.map Char.toUpper)

/-- Worker for `pyTitle`; the flag says whether the previous character was
alphabetic. -/
def pyTitleAux : Bool → List Char → List Char
  | _, [] => []
  | prevAlpha, c :: cs =>
      if c.isAlpha then
        (if prevAlpha then c.toLower else c.toUpper) :: pyTitleAux true cs
      else c :: pyTitleAux false cs

/-- Model of Python `str.title()` (ASCII case mapping suffices here). -/
def pyTitle (s : String) : String := String.mk (pyTitleAux false s.data)

/-- Model of Python string repetition `s * n`. -/
def pyRepeat (s : String) (n : Nat) : String := String.join (List.replicate n s)

/-- Python `str()` of a JSON number: integral values render as the integer
does; the decimal rendering of non-integral values is abstracted by the
rational notation (no claim depends on those digits). -/
def jsonNumStr (q : Rat) : String :=
  if q.den = 1 then toString q.num else toString q

/-- Fixed-point decimal formatting, the model of Python's `:.Nf` format
spec (Python rounds half to even on binary doubles; this model rounds half
up on exact rationals — no claim below sits on a tie). -/
def fmtFixed (prec : Nat) (q : Rat) : String :=
  let scale : Int := (10 : Int) ^ prec
  let n : Int := round (|q| * (scale : Rat))
  let fpStr := toString (n % scale).toNat
  let pad := String.mk (List.replicate (prec - fpStr.length) '0')
  (if q < 0 then "-" else "") ++ toString (n / scale) ++ "." ++ pad ++ fpStr

/-- Substring test on character lists (used only in theorem statements). -/
def hasSub (pat : List Char) : List Char → Bool
  | [] => pat.isEmpty
  | c :: cs => pat.isPrefixOf (c :: cs) || hasSub pat cs

/-- Worker for `pySplitOn`: leftmost, non-overlapping split at a non-empty
separator.  The fuel strictly decreases and is chosen large enough by the
caller, so the first branch is unreachable. -/
def splitSepAux (sep : List Char) : Nat → List Char → List Char → List (List Char)
  | 0, acc, l => [acc.reverse ++ l]
  | _ + 1, acc, [] => [acc.reverse]
  | fuel + 1, acc, c :: cs =>
      if sep.isPrefixOf (c :: cs) then
        acc.reverse :: splitSepAux sep fuel [] ((c :: cs).drop sep.length)
      else splitSepAux sep fuel (c :: acc) cs

/-- Model of Python `str.split(sep)` for a non-empty separator (also the
behavior of `String.splitOn`, re-implemented here with structural
recursion). -/
def pySplitOn (s : String) (sep : String) : List String :=
  (splitSepAux sep.data (s.data.length + 1) [] s.data).map String.mk

/-! ## Text analyzer -/

/-- `word_count` of `handle_text_analyzer`: `len(text.split())`. -/
def word_count (t : String) : Nat := (pySplit t).length

/-- `char_count`: `len(text)` (Python counts code points, as does
`String.length`). -/
def char_count (t : String) : Nat := t.length

/-- `char_count_no_spaces`: `len(text.replace(" ", ""))`. -/
def char_count_no_spaces (t : String) : Nat :=
  (t.data.filter (fun c => !(c == ' '))).length

/-- `sentence_count`: `text.count('.') + text.count('!') + text.count('?')`. -/
def sentence_count (t : String) : Nat :=
  t.data.count '.' + t.data.count '!' + t.data.count '?'

/-- `paragraph_count`: segments of `text.split('\n\n')` whose `strip()` is
truthy, i.e. which contain a non-whitespace character. -/
def paragraph_count (t : String) : Nat :=
  ((pySplitOn t "\n\n").filter (fun p => p.data.any (fun c => !(isPyWhitespace c)))).length

/-- The analyzer's average words per sentence:
`word_count / max(sentence_count, 1)`. -/
def avg_words (t : String) : Rat :=
  (word_count t : Rat) / ((max (sentence_count t) 1 : Nat) : Rat)

/-- Embedding of `handle_text_analyzer` (server.py lines 231-262). -/
def handle_text_analyzer (arguments : Args) : List TextContent :=
  let text := getStr arguments "text" ""
  if text = "" then
    [textContent "Error: No text provided"]
  else
    [textContent ("Text Analysis Results:\n- Character count: " ++
      toString (char_count text) ++
      "\n- Character count (no spaces): " ++ toString (char_count_no_spaces text) ++
      "\n- Word count: " ++ toString (word_count text) ++
      "\n- Sentence count: " ++ toString (sentence_count text) ++
      "\n- Paragraph count: " ++ toString (paragraph_count text) ++
      "\n- Average words per sentence: " ++ fmtFixed 1 (avg_words text) ++ "\n")]

/-! ## Data model: providers, environment, traces

`get_location_coordinates` (server.py lines 308-333) wraps the geocoding
HTTP call; every failure mode (non-200 status, empty result list, network
exception) is caught inside it and collapsed to `None`, so its interface
is exactly `String → Option LocationResult` and we model the whole
function as an oracle in the environment.  The other three HTTP calls are
modelled as oracles from the exact request parameters the source builds to
a `Fetched` payload; the non-200 and exception branches of each handler
consume the `badStatus`/`netError` outcomes.  Every outbound request is
also recorded in a trace so that claims about which network calls happen
(and in what order) are statable. -/

/-- The first geocoding result: `name`, optional country (the source reads
it with `.get("country", "")`, so absence is modelled by `""`), and
coordinates. -/
structure LocationResult where
  name : String
  country : String
  latitude : Rat
  longitude : Rat
deriving DecidableEq, Repr

/-- The query parameters `handle_get_weather` sends to the forecast API
(the `hourly` key is present exactly when `include_hourly` is set). -/
structure WeatherQuery where
  latitude : Rat
  longitude : Rat
  forecast_days : Int
  include_hourly : Bool
deriving DecidableEq, Repr

/-- The query parameters `handle_get_flights_by_location` sends: only the
credential and the limit (the free tier has no location filtering; the
radius is never sent). -/
structure FlightQuery where
  access_key : String
  limit : Int
deriving DecidableEq, Repr

/-- The query parameters `handle_get_airport_info` sends. -/
structure AirportQuery where
  access_key : String
  search : String
  limit : Int
deriving DecidableEq, Repr

/-- One outbound network request. -/
inductive NetCall where
  | geo (query : String)
  | weatherReq (q : WeatherQuery)
  | flightReq (q : FlightQuery)
  | airportReq (q : AirportQuery)
deriving DecidableEq, Repr

/-- Outcome of one provider HTTP call: decoded JSON payload, a non-200
status, or a transport-level exception (whose message feeds `str(e)`). -/
inductive Fetched (α : Type) where
  | ok (payload : α)
  | badStatus (status : Nat)
  | netError (msg : String)

/-- The `current` block of the weather payload; every field is optional
(an absent dict is modelled by all fields absent). -/
structure WCurrent where
  temperature_2m : Option Rat
  relative_humidity_2m : Option Rat
  weather_code : Option Int
  wind_speed_10m : Option Rat
  wind_direction_10m : Option Rat
deriving Inhabited, Repr

/-- The `daily` block of the weather payload: parallel arrays keyed by
`time`.  Each array is optional, and array entries may be JSON `null`. -/
structure WDaily where
  time : Option (List String)
  weather_code : Option (List (Option Int))
  temperature_2m_max : Option (List (Option Rat))
  temperature_2m_min : Option (List (Option Rat))
  precipitation_sum : Option (List (Option Rat))
  wind_speed_10m_max : Option (List (Option Rat))
deriving Inhabited, Repr

/-- The decoded weather payload. -/
structure WeatherData where
  current : Option WCurrent
  daily : Option WDaily
deriving Inhabited, Repr

/-- The `flight` sub-dict of one flight record. -/
structure FlightInfo where
  number : Option String
  status : Option String
deriving Inhabited, Repr

/-- A `departure` or `arrival` sub-dict. -/
structure FlightPoint where
  airport : Option String
  scheduled : Option String
deriving Inhabited, Repr

/-- The `aircraft` sub-dict. -/
structure Aircraft where
  registration : Option String
  iata : Option String
deriving Inhabited, Repr

/-- The `airline` sub-dict. -/
structure Airline where
  name : Option String
deriving Inhabited, Repr

/-- One element of the flight payload's `data` array; the source reads
each sub-dict with `.get(key, {})`, so an absent sub-dict is modelled by
one with all fields absent. -/
structure FlightRec where
  flight : FlightInfo
  departure : FlightPoint
  arrival : FlightPoint
  aircraft : Aircraft
  airline : Airline
deriving Inhabited, Repr

/-- The decoded flight payload (`data` read with `.get("data", [])`). -/
structure FlightData where
  data : Option (List FlightRec)
deriving Inhabited, Repr

/-- One element of the airport payload's `data` array.  The AviationStack
API returns coordinates as strings; all fields are read with truthiness
checks. -/
structure AirportRec where
  airport_name : Option String
  iata_code : Option String
  icao_code : Option String
  city_iata_code : Option String
  country_name : Option String
  latitude : Option String
  longitude : Option String
  timezone : Option String
deriving Inhabited, Repr

/-- The decoded airport payload. -/
structure AirportData where
  data : Option (List AirportRec)
deriving Inhabited, Repr

/-- What the filesystem shows for a path in `handle_list_files`: absent,
a non-directory, a directory with entries, or an `os` error raised while
listing (caught by the handler's `except`). -/
inductive FsView where
  | missing
  | notDir
  | dir (entries : List String)
  | err (msg : String)

/-- The external world at the moment of one tool call: the geocoder, the
credential in the process environment, the three HTTP providers and the
filesystem. -/
structure Env where
  geocode : String → Option LocationResult
  apiKey : Option String
  weather : WeatherQuery → Fetched WeatherData
  flights : FlightQuery → Fetched FlightData
  airports : AirportQuery → Fetched AirportData
  fs : String → FsView

/-- Embedding of `get_location_coordinates` (server.py lines 308-333): all
failures are already collapsed into the oracle's `none`. -/
def get_location_coordinates (env : Env) (location : String) : Option LocationResult :=
  env.geocode location

/-- Python truthiness of an optional string field read with `.get`. -/
def truthy : Option String → Bool
  | some s => !s.isEmpty
  | none => false

/-! ## Response formatters -/

/-- Embedding of `get_weather_description` (server.py lines 598-622). -/
def weather_codes : List (Int × String) :=
  [(0, "Clear sky"), (1, "Mainly clear"), (2, "Partly cloudy"), (3, "Overcast"),
   (45, "Fog"), (48, "Depositing rime fog"), (51, "Light drizzle"),
   (53, "Moderate drizzle"), (55, "Dense drizzle"), (61, "Slight rain"),
   (63, "Moderate rain"), (65, "Heavy rain"), (71, "Slight snow fall"),
   (73, "Moderate snow fall"), (75, "Heavy snow fall"), (95, "Thunderstorm"),
   (96, "Thunderstorm with slight hail"), (99, "Thunderstorm with heavy hail")]

/-- Weather-code to description lookup; unknown codes get the fallback
text, as in the source. -/
def get_weather_description (weather_code : Int) : String :=
  match weather_codes.find? (fun p => p.1 == weather_code) with
  | some p => p.2
  | none => "Unknown weather (code: " ++ toString weather_code ++ ")"

/-- Model of `daily.get(key, [None])[i]`: indexing the defaulted array out
of range raises `IndexError` (rendered `str(e) = "list index out of
range"`). -/
def pyIdx (o : Option (List (Option α))) (i : Nat) : Except String (Option α) :=
  match (o.getD [none])[i]? with
  | some v => .ok v
  | none => .error "list index out of range"

/-- Model of `date.split('T')[0] if 'T' in date else date`. -/
def dateOnly (date : String) : String :=
  if date.data.contains 'T' then (pySplitOn date "T").headD date else date

/-- The per-day lines of `format_weather_response`'s forecast loop
(server.py lines 661-683), indexing the five optional parallel arrays at
each position of `daily["time"]`. -/
def dailyEntryLines (d : WDaily) : Nat → List String → Except String String
  | _, [] => .ok ""
  | i, date :: rest => do
      let max_temp ← pyIdx d.temperature_2m_max i
      let min_temp ← pyIdx d.temperature_2m_min i
      let wcode ← pyIdx d.weather_code i
      let precipitation ← pyIdx d.precipitation_sum i
      let wind_speed ← pyIdx d.wind_speed_10m_max i
      let line := "\n" ++ dateOnly date ++ ":\n" ++
        (match wcode with
         | some c => "  â˜ï¸ " ++ get_weather_description c ++ "\n"
         | none => "") ++
        (match max_temp, min_temp with
         | some mx, some mn =>
             "  ðŸŒ¡ï¸ " ++ jsonNumStr mn ++
             "Â°C to " ++ jsonNumStr mx ++ "Â°C\n"
         | _, _ => "") ++
        (match precipitation with
         | some p =>
             if 0 < p then
               "  ðŸŒ§ï¸ Precipitation: " ++ jsonNumStr p ++ "mm\n"
             else ""
         | none => "") ++
        (match wind_speed with
         | some w => "  ðŸ’¨ Max wind: " ++ jsonNumStr w ++ " km/h\n"
         | none => "")
      let restS ← dailyEntryLines d (i + 1) rest
      .ok (line ++ restS)

/-- The current-conditions block of `format_weather_response`
(server.py lines 645-656). -/
def currentConditions (current : WCurrent) : String :=
  "ðŸ“ CURRENT CONDITIONS:\n" ++
  (match current.temperature_2m with
   | some t => "ðŸŒ¡ï¸ Temperature: " ++ jsonNumStr t ++ "Â°C\n"
   | none => "") ++
  (match current.relative_humidity_2m with
   | some h => "ðŸ’§ Humidity: " ++ jsonNumStr h ++ "%\n"
   | none => "") ++
  (match current.weather_code with
   | some c => "â˜ï¸ Conditions: " ++ get_weather_description c ++ "\n"
   | none => "") ++
  (match current.wind_speed_10m with
   | some w =>
       "ðŸ’¨ Wind: " ++ jsonNumStr w ++ " km/h" ++
       (match current.wind_direction_10m with
        | some dir => " from " ++ jsonNumStr dir ++ "Â°"
        | none => "") ++ "\n"
   | none => "")

/-- Embedding of `format_weather_response` (server.py lines 625-685).  The
`include_hourly` flag is accepted but, as in the source, never used.  The
result is `Except` because the daily loop can raise `IndexError`. -/
def format_weather_response (weather_data : WeatherData) (city_name country : String)
    (include_hourly : Bool) : Except String String :=
  let current := weather_data.current.getD default
  let daily := weather_data.daily.getD default
  let base :=
    "ðŸŒ¤ï¸ WEATHER FOR " ++ pyUpper city_name ++
    (if country ≠ "" then ", " ++ pyUpper country else "") ++
    "\n" ++ pyRepeat "=" 50 ++ "\n\n" ++ currentConditions current
  match daily.time with
  | some (d :: ds) =>
      (dailyEntryLines daily 0 (d :: ds)).map
        (fun lines => base ++ "\nðŸ“… DAILY FORECAST:\n" ++ lines)
  | _ => .ok base

/-- One flight entry of `format_flight_response`'s loop (server.py lines
711-750); `i` is the zero-based loop index.  The route line is emitted
unconditionally, with absent airports defaulted to `"Unknown"`. -/
def renderFlightEntry (i : Nat) (f : FlightRec) : String :=
  ("ðŸ›« FLIGHT " ++ toString (i + 1) ++ ":\n") ++
  ((match f.flight.number with
    | some n =>
        if n.isEmpty then ""
        else
          "  ðŸ“‹ Flight: " ++ n ++
          (match f.airline.name with
           | some an => if an.isEmpty then "" else " (" ++ an ++ ")"
           | none => "") ++ "\n"
    | none => "") ++
  (("  ðŸ›£ï¸ Route: " ++ (f.departure.airport.getD "Unknown") ++
    " â†’ " ++ (f.arrival.airport.getD "Unknown") ++ "\n") ++
  ((match f.flight.status with
    | some st =>
        if st.isEmpty then ""
        else
          "  " ++ (if st = "active" then "ðŸŸ¢" else "ðŸŸ¡") ++
          " Status: " ++ pyTitle st ++ "\n"
    | none => "") ++
  ((match f.aircraft.registration with
    | some reg =>
        if reg.isEmpty then ""
        else
          "  âœˆï¸ Aircraft: " ++ reg ++
          (match f.aircraft.iata with
           | some ia => if ia.isEmpty then "" else " (" ++ ia ++ ")"
           | none => "") ++ "\n"
    | none => "") ++
  ((match f.departure.scheduled with
    | some s => if s.isEmpty then "" else "  ðŸ• Departure: " ++ s ++ "\n"
    | none => "") ++
  ((match f.arrival.scheduled with
    | some s => if s.isEmpty then "" else "  ðŸ•‘ Arrival: " ++ s ++ "\n"
    | none => "") ++
  "\n"))))))

/-- Embedding of `format_flight_response` (server.py lines 688-756). -/
def format_flight_response (flight_data : FlightData) (city_name country : String)
    (lat lon : Rat) (radius : Int) : String :=
  let header :=
    "âœˆï¸ FLIGHT DATA NEAR " ++ pyUpper city_name ++
    (if country ≠ "" then ", " ++ pyUpper country else "") ++
    " (" ++ toString radius ++ "km radius)\n" ++ pyRepeat "=" 50 ++ "\n\n"
  let flights := flight_data.data.getD []
  if flights.isEmpty then
    header ++ "No flight data available. This might be due to:\n" ++
    "- API rate limits on the free tier\n" ++
    "- No flights currently active in the area\n" ++
    "- API key limitations\n\n" ++
    "ðŸ’¡ TIP: The free AviationStack tier has limited features.\n" ++
    "For production use, consider upgrading for location-based filtering."
  else
    header ++ "ðŸ“Š SHOWING " ++ toString flights.length ++ " FLIGHTS:\n\n" ++
    String.join ((flights.take 10).enum.map (fun p => renderFlightEntry p.1 p.2)) ++
    "ðŸ“¡ Data provided by AviationStack API\n" ++
    "ðŸ—ºï¸ Center coordinates: " ++ fmtFixed 4 lat ++ ", " ++
    fmtFixed 4 lon ++ "\n" ++
    "ðŸ’¡ Use these coordinates for map visualization"

/-- One airport entry of `format_airport_response`'s loop (server.py lines
778-806). -/
def renderAirportEntry (i : Nat) (a : AirportRec) : String :=
  ("ðŸ›¬ AIRPORT " ++ toString (i + 1) ++ ":\n") ++
  ((match a.airport_name with
    | some n => if n.isEmpty then "" else "  ðŸ“‹ Name: " ++ n ++ "\n"
    | none => "") ++
  ((match a.iata_code with
    | some ic =>
        if ic.isEmpty then ""
        else
          "  ðŸ·ï¸ IATA Code: " ++ ic ++
          (match a.icao_code with
           | some oc => if oc.isEmpty then "" else " / ICAO: " ++ oc
           | none => "") ++ "\n"
    | none => "") ++
  ((match a.city_iata_code with
    | some cc =>
        if cc.isEmpty then ""
        else
          "  ðŸ™ï¸ City: " ++ cc ++
          (match a.country_name with
           | some cn => if cn.isEmpty then "" else ", " ++ cn
           | none => "") ++ "\n"
    | none => "") ++
  ((if truthy a.latitude && truthy a.longitude then
      "  ðŸŒ Coordinates: " ++ a.latitude.getD "" ++ ", " ++ a.longitude.getD "" ++ "\n"
    else "") ++
  ((match a.timezone with
    | some tz => if tz.isEmpty then "" else "  ðŸ• Timezone: " ++ tz ++ "\n"
    | none => "") ++
  "\n")))))

/-- Embedding of `format_airport_response` (server.py lines 759-810). -/
def format_airport_response (airport_data : AirportData) (location : String) : String :=
  let header :=
    "ðŸ›¬ AIRPORTS NEAR " ++ pyUpper location ++ "\n" ++
    pyRepeat "=" 40 ++ "\n\n"
  let airports := airport_data.data.getD []
  if airports.isEmpty then
    header ++ "No airports found for \x27" ++ location ++ "\x27.\n" ++
    "Try searching with:\n" ++
    "- Full city name (e.g., \x27New York\x27)\n" ++
    "- Airport code (e.g., \x27JFK\x27, \x27LAX\x27)\n" ++
    "- Country name\n"
  else
    header ++ "ðŸ“Š FOUND " ++ toString airports.length ++ " AIRPORTS:\n\n" ++
    String.join (airports.enum.map (fun p => renderAirportEntry p.1 p.2)) ++
    "ðŸ“¡ Data provided by AviationStack API"

/-! ## Tool handlers with network access -/

/-- The `MissingCredential` text both aviation handlers return when the
environment variable is absent (server.py lines 420-423 and 488-491). -/
def missingKeyMsg : String :=
  "Error: AviationStack API key not found. Please set AVIATIONSTACK_API_KEY environment variable. Get your free API key at: https://aviationstack.com/signup/free"

/-- The geocoding-failure text shared by the weather, flight and composite
handlers. -/
def locationNotFoundMsg (location : String) : String :=
  "Error: Location \x27" ++ location ++ "\x27 not found. Please try a different city name."

/-- Embedding of `handle_get_weather` (server.py lines 336-400).  Output
blocks are paired with the trace of network requests the handler issued;
an exception raised inside the `try` (transport failure or the formatter's
`IndexError`) is rendered by the final `except` clause. -/
def handle_get_weather (env : Env) (arguments : Args) : List TextContent × List NetCall :=
  let location := getStr arguments "location" ""
  let days := getInt arguments "days" 3
  let include_hourly := getBool arguments "include_hourly" false
  if location = "" then
    ([textContent "Error: No location provided"], [])
  else
    match get_location_coordinates env location with
    | none => ([textContent (locationNotFoundMsg location)], [NetCall.geo location])
    | some ld =>
        let q : WeatherQuery := ⟨ld.latitude, ld.longitude, days, include_hourly⟩
        let trace := [NetCall.geo location, NetCall.weatherReq q]
        match env.weather q with
        | .badStatus s =>
            ([textContent ("Error: Could not fetch weather data (status: " ++ toString s ++ ")")], trace)
        | .netError msg =>
            ([textContent ("Error getting weather for \x27" ++ location ++ "\x27: " ++ msg)], trace)
        | .ok weather_data =>
            match format_weather_response weather_data ld.name ld.country include_hourly with
            | .ok s => ([textContent s], trace)
            | .error e =>
                ([textContent ("Error getting weather for \x27" ++ location ++ "\x27: " ++ e)], trace)

/-- Embedding of `handle_get_flights_by_location` (server.py lines
403-470).  The credential check precedes the geocoding call; the `radius`
argument is used only in the formatted text, never in the request. -/
def handle_get_flights_by_location (env : Env) (arguments : Args) : List TextContent × List NetCall :=
  let location := getStr arguments "location" ""
  let radius := getInt arguments "radius" 100
  let limit := getInt arguments "limit" 20
  if location = "" then
    ([textContent "Error: No location provided"], [])
  else
    match env.apiKey with
    | none => ([textContent missingKeyMsg], [])
    | some api_key =>
        match get_location_coordinates env location with
        | none => ([textContent (locationNotFoundMsg location)], [NetCall.geo location])
        | some ld =>
            let q : FlightQuery := ⟨api_key, limit⟩
            let trace := [NetCall.geo location, NetCall.flightReq q]
            match env.flights q with
            | .badStatus s =>
                ([textContent ("Error: Could not fetch flight data (status: " ++ toString s ++ ")")], trace)
            | .netError msg =>
                ([textContent ("Error getting flight data for \x27" ++ location ++ "\x27: " ++ msg)], trace)
            | .ok flight_data =>
                ([textContent (format_flight_response flight_data ld.name ld.country ld.latitude ld.longitude radius)], trace)

/-- Embedding of `handle_get_airport_info` (server.py lines 473-523).
This handler never geocodes: the location string itself is the search
term. -/
def handle_get_airport_info (env : Env) (arguments : Args) : List TextContent × List NetCall :=
  let location := getStr arguments "location" ""
  if location = "" then
    ([textContent "Error: No location provided"], [])
  else
    match env.apiKey with
    | none => ([textContent missingKeyMsg], [])
    | some api_key =>
        let q : AirportQuery := ⟨api_key, location, 10⟩
        let trace := [NetCall.airportReq q]
        match env.airports q with
        | .badStatus s =>
            ([textContent ("Error: Could not fetch airport data (status: " ++ toString s ++ ")")], trace)
        | .netError msg =>
            ([textContent ("Error getting airport info for \x27" ++ location ++ "\x27: " ++ msg)], trace)
        | .ok airport_data =>
            ([textContent (format_airport_response airport_data location)], trace)

/-- Embedding of `handle_list_files` (server.py lines 265-305).  The
filesystem is part of the environment; `files.sort()` is Python's
lexicographic string sort. -/
def handle_list_files (env : Env) (arguments : Args) : List TextContent :=
  let path := getStr arguments "path" "."
  match env.fs path with
  | .missing => [textContent ("Error: Path \x27" ++ path ++ "\x27 does not exist")]
  | .notDir => [textContent ("Error: Path \x27" ++ path ++ "\x27 is not a directory")]
  | .err msg => [textContent ("Error listing files in \x27" ++ path ++ "\x27: " ++ msg)]
  | .dir entries =>
      if entries.isEmpty then
        [textContent ("Directory \x27" ++ path ++ "\x27 is empty")]
      else
        let files := entries.mergeSort (fun a b => a ≤ b)
        [textContent ("Files in \x27" ++ path ++ "\x27:\n" ++
          String.intercalate "\n" (files.map (fun f => "- " ++ f)))]

/-- The header the composite handler writes before its sub-steps
(server.py lines 555-560). -/
def locHeader (ld : LocationResult) : String :=
  "ðŸ“ COMPREHENSIVE DATA FOR " ++ pyUpper ld.name ++
  (if ld.country ≠ "" then ", " ++ pyUpper ld.country else "") ++
  "\n" ++ pyRepeat "=" 60 ++ "\n\n" ++
  "ðŸŒ COORDINATES: " ++ fmtFixed 4 ld.latitude ++ ", " ++
  fmtFixed 4 ld.longitude ++ "\n\n"

/-- The footer the composite handler writes after its sub-steps
(server.py lines 582-584). -/
def locFooter (ld : LocationResult) : String :=
  "ðŸ—ºï¸ MAP INTEGRATION READY\n" ++
  "Use coordinates (" ++ fmtFixed 4 ld.latitude ++ ", " ++
  fmtFixed 4 ld.longitude ++ ") for mapping applications\n" ++
  "This data can be used to create interactive maps with weather and flight overlays."

/-- Model of `if sub_response: result += sub_response[0].text + "\n\n"`:
append the first block's text of a sub-handler result, if any. -/
def appendBlock (blocks : List TextContent) : String :=
  match blocks with
  | b :: _ => b.text ++ "\n\n"
  | [] => ""

/-- Embedding of `handle_get_location_data` (server.py lines 526-595): the
composite handler.  It geocodes itself, then re-invokes the weather,
airport and flight handlers with freshly built argument dicts — each of
which does its own geocoding, exactly as in the source. -/
def handle_get_location_data (env : Env) (arguments : Args) : List TextContent × List NetCall :=
  let location := getStr arguments "location" ""
  let include_flights := getBool arguments "include_flights" true
  let include_weather := getBool arguments "include_weather" true
  let flight_radius := getInt arguments "flight_radius" 100
  if location = "" then
    ([textContent "Error: No location provided"], [])
  else
    match get_location_coordinates env location with
    | none => ([textContent (locationNotFoundMsg location)], [NetCall.geo location])
    | some ld =>
        let w :=
          if include_weather then
            handle_get_weather env
              [("location", PyVal.str location), ("days", PyVal.int 3),
               ("include_hourly", PyVal.bool false)]
          else ([], [])
        let a := handle_get_airport_info env [("location", PyVal.str location)]
        let f :=
          if include_flights then
            handle_get_flights_by_location env
              [("location", PyVal.str location), ("radius", PyVal.int flight_radius),
               ("limit", PyVal.int 10)]
          else ([], [])
        ([textContent (locHeader ld ++ appendBlock w.1 ++ appendBlock a.1 ++
            appendBlock f.1 ++ locFooter ld)],
         NetCall.geo location :: (w.2 ++ a.2 ++ f.2))

/-! ## Tool catalog and dispatcher -/

/-- The names of the tools `list_tools` advertises (server.py lines
23-170), in catalog order. -/
def toolNames : List String :=
  ["calculator", "text_analyzer", "list_files", "get_weather",
   "get_flights_by_location", "get_airport_info", "get_location_data"]

/-- Declared integer bounds of a schema parameter (`minimum`/`maximum`). -/
structure IntBounds where
  lo : Int
  hi : Int
deriving DecidableEq, Repr

/-- `get_weather.days` is declared with `minimum 1, maximum 7`. -/
def days_bounds : IntBounds := ⟨1, 7⟩

/-- `get_flights_by_location.radius` is declared with
`minimum 10, maximum 500`. -/
def radius_bounds : IntBounds := ⟨10, 500⟩

/-- `get_flights_by_location.limit` is declared with
`minimum 1, maximum 100`. -/
def limit_bounds : IntBounds := ⟨1, 100⟩

/-- Embedding of `call_tool` (server.py lines 173-194).  The unknown-tool
branch executes `raise ValueError(f"Unknown tool: {name}")`, modelled as
`Except.error`; all known names delegate to their handler.  Pure handlers
contribute an empty network trace. -/
def call_tool (env : Env) (name : String) (arguments : Args) :
    Except String (List TextContent × List NetCall) :=
  if name = "calculator" then .ok (handle_calculator arguments, [])
  else if name = "text_analyzer" then .ok (handle_text_analyzer arguments, [])
  else if name = "list_files" then .ok (handle_list_files env arguments, [])
  else if name = "get_weather" then .ok (handle_get_weather env arguments)
  else if name = "get_flights_by_location" then .ok (handle_get_flights_by_location env arguments)
  else if name = "get_airport_info" then .ok (handle_get_airport_info env arguments)
  else if name = "get_location_data" then .ok (handle_get_location_data env arguments)
  else .error ("Unknown tool: " ++ name)

/-! ## Concrete environments and payloads for witnesses and
counterexamples -/

/-- A geocoding result used by concrete instances. -/
def oslo : LocationResult := ⟨"Oslo", "Norway", 59.91, 10.75⟩

/-- An inert environment: nothing resolves, no credential, every provider
fails, the filesystem is empty. -/
def env0 : Env where
  geocode := fun _ => none
  apiKey := none
  weather := fun _ => .badStatus 500
  flights := fun _ => .badStatus 500
  airports := fun _ => .badStatus 500
  fs := fun _ => .missing

/-- A fully successful environment: geocoding resolves `"Oslo"`, the
credential is present, every provider returns a minimal payload. -/
def env1 : Env where
  geocode := fun q => if q = "Oslo" then some oslo else none
  apiKey := some "k"
  weather := fun _ => .ok ⟨none, none⟩
  flights := fun _ => .ok ⟨some []⟩
  airports := fun _ => .ok ⟨some []⟩
  fs := fun _ => .missing

/-- A weather payload whose `daily` block has two days but no optional
arrays: the forecast loop's defaulted `[None]` indexing fails at `i = 1`. -/
def wd0 : WeatherData :=
  ⟨none, some ⟨some ["2025-01-01", "2025-01-02"], none, none, none, none, none⟩⟩

/-- A flight payload with a single record all of whose optional sub-fields
are absent. -/
def fd0 : FlightData :=
  ⟨some [⟨⟨none, none⟩, ⟨none, none⟩, ⟨none, none⟩, ⟨none, none⟩, ⟨none⟩⟩]⟩

/-- Whether a network call is a geocoding lookup. -/
def isGeo : NetCall → Bool
  | .geo _ => true
  | _ => false

/-- Number of geocoding lookups in a trace. -/
def geoCalls (tr : List NetCall) : Nat := (tr.filter isGeo).length

/-- Text of the first block of a handler result (every handler returns
exactly one). -/
def firstText (blocks : List TextContent) : String :=
  (blocks.headD (textContent "")).text

/-- The parallel daily arrays are long enough for every index the
forecast loop will use. -/
def dailyAligned (d : WDaily) : Prop :=
  (d.time.getD []).length ≤ (d.weather_code.getD [none]).length ∧
  (d.time.getD []).length ≤ (d.temperature_2m_max.getD [none]).length ∧
  (d.time.getD []).length ≤ (d.temperature_2m_min.getD [none]).length ∧
  (d.time.getD []).length ≤ (d.precipitation_sum.getD [none]).length ∧
  (d.time.getD []).length ≤ (d.wind_speed_10m_max.getD [none]).length

instance (d : WDaily) : Decidable (dailyAligned d) := by
  unfold dailyAligned; infer_instance

/-! ## Per-handler shape lemmas -/

theorem handle_calculator_single (args : Args) : ∃ b, handle_calculator args = [b] := by
  simp only [handle_calculator]
  repeat' split
  all_goals exact ⟨_, rfl⟩

theorem handle_text_analyzer_single (args : Args) : ∃ b, handle_text_analyzer args = [b] := by
  simp only [handle_text_analyzer]
  repeat' split
  all_goals exact ⟨_, rfl⟩

theorem handle_list_files_single (env : Env) (args : Args) :
    ∃ b, handle_list_files env args = [b] := by
  simp only [handle_list_files]
  repeat' split
  all_goals exact ⟨_, rfl⟩

theorem handle_get_weather_single (env : Env) (args : Args) :
    ∃ b tr, handle_get_weather env args = ([b], tr) := by
  simp only [handle_get_weather]
  repeat' split
  all_goals exact ⟨_, _, rfl⟩

theorem handle_get_flights_single (env : Env) (args : Args) :
    ∃ b tr, handle_get_flights_by_location env args = ([b], tr) := by
  simp only [handle_get_flights_by_location]
  repeat' split
  all_goals exact ⟨_, _, rfl⟩

theorem handle_get_airport_single (env : Env) (args : Args) :
    ∃ b tr, handle_get_airport_info env args = ([b], tr) := by
  simp only [handle_get_airport_info]
  repeat' split
  all_goals exact ⟨_, _, rfl⟩

theorem handle_get_location_data_single (env : Env) (args : Args) :
    ∃ b tr, handle_get_location_data env args = ([b], tr) := by
  simp only [handle_get_location_data]
  repeat' split
  all_goals exact ⟨_, _, rfl⟩

/-! ## Trace lemmas -/

theorem weather_trace (env : Env) (loc : String) (ld : LocationResult) (days : Int)
    (ihr : Bool) (hloc : loc ≠ "") (hg : env.geocode loc = some ld) :
    (handle_get_weather env
      [("location", PyVal.str loc), ("days", PyVal.int days),
       ("include_hourly", PyVal.bool ihr)]).2 =
    [NetCall.geo loc, NetCall.weatherReq ⟨ld.latitude, ld.longitude, days, ihr⟩] := by
  have e1 : getStr [("location", PyVal.str loc), ("days", PyVal.int days),
      ("include_hourly", PyVal.bool ihr)] "location" "" = loc := rfl
  have e2 : getInt [("location", PyVal.str loc), ("days", PyVal.int days),
      ("include_hourly", PyVal.bool ihr)] "days" 3 = days := rfl
  have e3 : getBool [("location", PyVal.str loc), ("days", PyVal.int days),
      ("include_hourly", PyVal.bool ihr)] "include_hourly" false = ihr := rfl
  simp only [handle_get_weather, e1, e2, e3, get_location_coordinates, hg]
  rw [if_neg hloc]
  repeat' split
  all_goals rfl

theorem flights_trace (env : Env) (loc key : String) (ld : LocationResult)
    (radius limit : Int) (hloc : loc ≠ "") (hk : env.apiKey = some key)
    (hg : env.geocode loc = some ld) :
    (handle_get_flights_by_location env
      [("location", PyVal.str loc), ("radius", PyVal.int radius),
       ("limit", PyVal.int limit)]).2 =
    [NetCall.geo loc, NetCall.flightReq ⟨key, limit⟩] := by
  have e1 : getStr [("location", PyVal.str loc), ("radius", PyVal.int radius),
      ("limit", PyVal.int limit)] "location" "" = loc := rfl
  have e2 : getInt [("location", PyVal.str loc), ("radius", PyVal.int radius),
      ("limit", PyVal.int limit)] "limit" 20 = limit := rfl
  simp only [handle_get_flights_by_location, e1, e2, hk, get_location_coordinates, hg]
  rw [if_neg hloc]
  split <;> rfl

theorem airports_trace (env : Env) (loc key : String) (hloc : loc ≠ "")
    (hk : env.apiKey = some key) :
    (handle_get_airport_info env [("location", PyVal.str loc)]).2 =
    [NetCall.airportReq ⟨key, loc, 10⟩] := by
  have e1 : getStr [("location", PyVal.str loc)] "location" "" = loc := rfl
  simp only [handle_get_airport_info, e1, hk]
  rw [if_neg hloc]
  split <;> rfl

theorem flights_missing_key (env : Env) (args : Args) (hk : env.apiKey = none)
    (hloc : getStr args "location" "" ≠ "") :
    handle_get_flights_by_location env args = ([textContent missingKeyMsg], []) := by
  simp only [handle_get_flights_by_location, hk]
  rw [if_neg hloc]

theorem airports_missing_key (env : Env) (args : Args) (hk : env.apiKey = none)
    (hloc : getStr args "location" "" ≠ "") :
    handle_get_airport_info env args = ([textContent missingKeyMsg], []) := by
  simp only [handle_get_airport_info, hk]
  rw [if_neg hloc]

/-! ## Generic helper lemmas -/

theorem string_data_append (a b : String) : (a ++ b).data = a.data ++ b.data := rfl

theorem hasSub_cons (pat : List Char) (c : Char) (cs : List Char)
    (h : hasSub pat cs = true) : hasSub pat (c :: cs) = true := by
  unfold hasSub
  rcases cs with _ | ⟨d, ds⟩
  · simp only [hasSub] at h
    simp [List.isPrefixOf, h]
    rcases pat with _ | _
    · simp [List.isPrefixOf]
    · simp_all [List.isEmpty]
  · simp [h]

theorem hasSub_append (pat l2 l1 : List Char) (h : hasSub pat l2 = true) :
    hasSub pat (l1 ++ l2) = true := by
  induction l1 with
  | nil => simpa using h
  | cons c t ih => simpa using hasSub_cons pat c (t ++ l2) ih

theorem isPrefixOf_extend (pat l l2 : List Char) (h : pat.isPrefixOf l = true) :
    pat.isPrefixOf (l ++ l2) = true := by
  rw [List.isPrefixOf_iff_prefix] at h ⊢
  exact h.trans (List.prefix_append l l2)

theorem hasSub_append_right (pat l1 l2 : List Char) (h : hasSub pat l1 = true) :
    hasSub pat (l1 ++ l2) = true := by
  induction l1 with
  | nil =>
      simp only [hasSub] at h
      have : pat = [] := by simpa [List.isEmpty_iff] using h
      subst this
      rcases l2 with _ | _ <;> simp [hasSub, List.isPrefixOf]
  | cons c t ih =>
      simp only [hasSub, Bool.or_eq_true] at h
      rcases h with h | h
      · have := isPrefixOf_extend pat (c :: t) l2 h
        simp only [List.cons_append, hasSub, Bool.or_eq_true]
        exact Or.inl (by simpa using this)
      · simpa using hasSub_cons pat c (t ++ l2) (ih h)

theorem except_bind_ok {α β : Type} (v : α) (f : α → Except String β) :
    (Except.ok v >>= f) = f v := rfl

theorem pyIdx_ok {α : Type} (o : Option (List (Option α))) (i : Nat)
    (h : i < (o.getD [none]).length) : ∃ v, pyIdx o i = .ok v := by
  unfold pyIdx
  rw [List.getElem?_eq_getElem h]
  exact ⟨_, rfl⟩

theorem dailyEntryLines_ok (d : WDaily) (l : List String) :
    ∀ i : Nat,
      i + l.length ≤ (d.weather_code.getD [none]).length →
      i + l.length ≤ (d.temperature_2m_max.getD [none]).length →
      i + l.length ≤ (d.temperature_2m_min.getD [none]).length →
      i + l.length ≤ (d.precipitation_sum.getD [none]).length →
      i + l.length ≤ (d.wind_speed_10m_max.getD [none]).length →
      ∃ s, dailyEntryLines d i l = .ok s := by
  induction l with
  | nil => intro i _ _ _ _ _; exact ⟨"", rfl⟩
  | cons x xs ih =>
      intro i h1 h2 h3 h4 h5
      simp only [List.length_cons] at h1 h2 h3 h4 h5
      obtain ⟨s, hs⟩ := ih (i + 1) (by omega) (by omega) (by omega) (by omega) (by omega)
      obtain ⟨v1, e1⟩ := pyIdx_ok d.temperature_2m_max i (by omega)
      obtain ⟨v2, e2⟩ := pyIdx_ok d.temperature_2m_min i (by omega)
      obtain ⟨v3, e3⟩ := pyIdx_ok d.weather_code i (by omega)
      obtain ⟨v4, e4⟩ := pyIdx_ok d.precipitation_sum i (by omega)
      obtain ⟨v5, e5⟩ := pyIdx_ok d.wind_speed_10m_max i (by omega)
      cases hres : dailyEntryLines d i (x :: xs) with
      | ok s2 => exact ⟨s2, rfl⟩
      | error e =>
          simp only [dailyEntryLines, e1, e2, e3, e4, e5, hs, except_bind_ok] at hres
          exact Except.noConfusion hres

theorem format_weather_ok (wd : WeatherData) (city country : String) (ih : Bool)
    (h : dailyAligned (wd.daily.getD default)) :
    ∃ s, format_weather_response wd city country ih = .ok s := by
  obtain ⟨h1, h2, h3, h4, h5⟩ := h
  cases hres : format_weather_response wd city country ih with
  | ok s => exact ⟨s, rfl⟩
  | error e =>
      exfalso
      rcases ht : (wd.daily.getD default).time with _ | ⟨_ | ⟨x, xs⟩⟩
      · simp only [format_weather_response, ht] at hres
        exact Except.noConfusion hres
      · simp only [format_weather_response, ht] at hres
        exact Except.noConfusion hres
      · rw [ht] at h1 h2 h3 h4 h5
        simp only [Option.getD_some, List.length_cons] at h1 h2 h3 h4 h5
        obtain ⟨s, hs⟩ := dailyEntryLines_ok (wd.daily.getD default) (x :: xs) 0
          (by simp only [List.length_cons]; omega) (by simp only [List.length_cons]; omega)
          (by simp only [List.length_cons]; omega) (by simp only [List.length_cons]; omega)
          (by simp only [List.length_cons]; omega)
        simp only [format_weather_response, ht, hs, Except.map] at hres
        exact Except.noConfusion hres

/-! ## Claims -/

/-- C1, counterexample: for the unknown tool name `"not_a_tool"`, the
dispatcher does not return an `"Error:"`-prefixed text block — it raises
`ValueError("Unknown tool: not_a_tool")` (modelled by `Except.error`), so
the claim that `call_tool` itself returns a descriptive error block and
never raises is false. -/
theorem c1_counterexample :
    call_tool env0 "not_a_tool" [] = Except.error "Unknown tool: not_a_tool" := rfl

/-- C1 (amended): for every tool name not present in the catalog and every
argument map, `call_tool` raises `ValueError` with the message
`"Unknown tool: <name>"`; the error propagates to the transport layer
instead of being rendered as a text block by the dispatcher itself. -/
theorem c1_unknown_tool_raises (env : Env) (name : String) (args : Args)
    (h : name ∉ toolNames) :
    call_tool env name args = Except.error ("Unknown tool: " ++ name) := by
  simp only [toolNames, List.mem_cons, List.not_mem_nil, or_false, not_or] at h
  obtain ⟨h1, h2, h3, h4, h5, h6, h7⟩ := h
  simp only [call_tool, if_neg h1, if_neg h2, if_neg h3, if_neg h4, if_neg h5,
    if_neg h6, if_neg h7]

/-- C1 witness: the amended theorem applied at the concrete unknown name
`"frobnicate"`. -/
theorem c1_witness :
    "frobnicate" ∉ toolNames ∧
    call_tool env0 "frobnicate" [] = Except.error "Unknown tool: frobnicate" :=
  ⟨by decide, c1_unknown_tool_raises env0 "frobnicate" [] (by decide)⟩

/-- C2, counterexample: in a fully successful environment, one composite
`get_location_data` request issues three geocoding lookups (its own, the
weather sub-step's and the flights sub-step's), not exactly one. -/
theorem c2_counterexample :
    geoCalls (handle_get_location_data env1 [("location", PyVal.str "Oslo")]).2 = 3 ∧
    geoCalls (handle_get_location_data env1 [("location", PyVal.str "Oslo")]).2 ≠ 1 := by
  constructor
  · decide
  · decide

/-- C2 (amended): the composite handler geocodes once itself, and the
weather and flights sub-steps each issue their own geocoding call with the
same location string (the airports sub-step issues none): with the default
`include_weather`/`include_flights` and a resolving location and present
credential, exactly three geocoding calls appear in the trace, all with
the same query. -/
theorem c2_geocode_per_substep (env : Env) (loc key : String) (ld : LocationResult)
    (hloc : loc ≠ "") (hg : env.geocode loc = some ld) (hk : env.apiKey = some key) :
    ((handle_get_location_data env [("location", PyVal.str loc)]).2).filter isGeo =
      [NetCall.geo loc, NetCall.geo loc, NetCall.geo loc] := by
  have e1 : getStr [("location", PyVal.str loc)] "location" "" = loc := rfl
  have e2 : getBool [("location", PyVal.str loc)] "include_flights" true = true := rfl
  have e3 : getBool [("location", PyVal.str loc)] "include_weather" true = true := rfl
  have e4 : getInt [("location", PyVal.str loc)] "flight_radius" 100 = 100 := rfl
  simp only [handle_get_location_data, e1, e2, e3, e4, get_location_coordinates, hg,
    if_true]
  rw [if_neg hloc]
  rw [weather_trace env loc ld 3 false hloc hg,
    airports_trace env loc key hloc hk,
    flights_trace env loc key ld 100 10 hloc hk hg]
  rfl

/-- C2 witness: the amended theorem applied in the fully successful
environment. -/
theorem c2_witness :
    "Oslo" ≠ "" ∧ env1.geocode "Oslo" = some oslo ∧ env1.apiKey = some "k" ∧
    ((handle_get_location_data env1 [("location", PyVal.str "Oslo")]).2).filter isGeo =
      [NetCall.geo "Oslo", NetCall.geo "Oslo", NetCall.geo "Oslo"] :=
  ⟨by decide, rfl, rfl, c2_geocode_per_substep env1 "Oslo" "k" oslo (by decide) rfl rfl⟩

/-- C3: for every environment (hence also when any sub-step fails) and
every successfully geocoded composite request, the single output block is
exactly the geocode header, then the weather sub-handler's block (when
requested), then the airport sub-handler's block (always), then the
flights sub-handler's block (when requested), then the footer — each
sub-step contributing its own success or error text in that fixed order. -/
theorem c3_composite_order (env : Env) (loc : String) (ld : LocationResult)
    (iw ifl : Bool) (r : Int) (hloc : loc ≠ "") (hg : env.geocode loc = some ld) :
    (handle_get_location_data env
      [("location", PyVal.str loc), ("include_weather", PyVal.bool iw),
       ("include_flights", PyVal.bool ifl), ("flight_radius", PyVal.int r)]).1 =
    [textContent (locHeader ld ++
      (if iw then
        firstText (handle_get_weather env
          [("location", PyVal.str loc), ("days", PyVal.int 3),
           ("include_hourly", PyVal.bool false)]).1 ++ "\n\n"
       else "") ++
      (firstText (handle_get_airport_info env [("location", PyVal.str loc)]).1 ++ "\n\n") ++
      (if ifl then
        firstText (handle_get_flights_by_location env
          [("location", PyVal.str loc), ("radius", PyVal.int r),
           ("limit", PyVal.int 10)]).1 ++ "\n\n"
       else "") ++
      locFooter ld)] := by
  have e1 : getStr [("location", PyVal.str loc), ("include_weather", PyVal.bool iw),
      ("include_flights", PyVal.bool ifl), ("flight_radius", PyVal.int r)]
      "location" "" = loc := rfl
  have e2 : getBool [("location", PyVal.str loc), ("include_weather", PyVal.bool iw),
      ("include_flights", PyVal.bool ifl), ("flight_radius", PyVal.int r)]
      "include_flights" true = ifl := rfl
  have e3 : getBool [("location", PyVal.str loc), ("include_weather", PyVal.bool iw),
      ("include_flights", PyVal.bool ifl), ("flight_radius", PyVal.int r)]
      "include_weather" true = iw := rfl
  have e4 : getInt [("location", PyVal.str loc), ("include_weather", PyVal.bool iw),
      ("include_flights", PyVal.bool ifl), ("flight_radius", PyVal.int r)]
      "flight_radius" 100 = r := rfl
  obtain ⟨bw, tw, hw⟩ := handle_get_weather_single env
    [("location", PyVal.str loc), ("days", PyVal.int 3), ("include_hourly", PyVal.bool false)]
  obtain ⟨ba, ta, ha⟩ := handle_get_airport_single env [("location", PyVal.str loc)]
  obtain ⟨bf, tf, hf⟩ := handle_get_flights_single env
    [("location", PyVal.str loc), ("radius", PyVal.int r), ("limit", PyVal.int 10)]
  simp only [handle_get_location_data, e1, e2, e3, e4, get_location_coordinates, hg]
  rw [if_neg hloc]
  cases iw <;> cases ifl <;>
    simp [hw, ha, hf, appendBlock, firstText]

/-- C3 witness: the ordering theorem applied in the fully successful
environment with both optional steps requested. -/
theorem c3_witness :
    "Oslo" ≠ "" ∧ env1.geocode "Oslo" = some oslo ∧
    (handle_get_location_data env1
      [("location", PyVal.str "Oslo"), ("include_weather", PyVal.bool true),
       ("include_flights", PyVal.bool true), ("flight_radius", PyVal.int 100)]).1 =
    [textContent (locHeader oslo ++
      (firstText (handle_get_weather env1
        [("location", PyVal.str "Oslo"), ("days", PyVal.int 3),
         ("include_hourly", PyVal.bool false)]).1 ++ "\n\n") ++
      (firstText (handle_get_airport_info env1 [("location", PyVal.str "Oslo")]).1 ++ "\n\n") ++
      (firstText (handle_get_flights_by_location env1
        [("location", PyVal.str "Oslo"), ("radius", PyVal.int 100),
         ("limit", PyVal.int 10)]).1 ++ "\n\n") ++
      locFooter oslo)] := by
  refine ⟨by decide, rfl, ?_⟩
  have h := c3_composite_order env1 "Oslo" oslo true true 100 (by decide) rfl
  simpa using h

/-- C4, counterexample: `days = 100` is outside the schema's declared
`[1, 7]`, yet `get_weather` runs, forwards `forecast_days = 100` to the
provider, and returns the provider-backed success block — no `OutOfRange`
error block exists. -/
theorem c4_counterexample :
    days_bounds.hi < 100 ∧
    (handle_get_weather env1
      [("location", PyVal.str "Oslo"), ("days", PyVal.int 100)]).2 =
      [NetCall.geo "Oslo", NetCall.weatherReq ⟨59.91, 10.75, 100, false⟩] ∧
    ("Error".data.isPrefixOf
      (firstText (handle_get_weather env1
        [("location", PyVal.str "Oslo"), ("days", PyVal.int 100)]).1).data) = false := by
  refine ⟨by decide, by decide, by decide⟩

/-- C4 (amended): no bounds validation happens before a handler runs:
`get_weather` forwards any integer `days` value unchanged to the provider
as `forecast_days`, and `get_flights_by_location` forwards any `limit`
value unchanged, whatever the schema's declared `minimum`/`maximum`. -/
theorem c4_no_bounds_validation :
    (∀ (env : Env) (loc : String) (ld : LocationResult) (days : Int) (ihr : Bool),
      loc ≠ "" → env.geocode loc = some ld →
      (handle_get_weather env
        [("location", PyVal.str loc), ("days", PyVal.int days),
         ("include_hourly", PyVal.bool ihr)]).2 =
        [NetCall.geo loc, NetCall.weatherReq ⟨ld.latitude, ld.longitude, days, ihr⟩]) ∧
    (∀ (env : Env) (loc key : String) (ld : LocationResult) (radius limit : Int),
      loc ≠ "" → env.apiKey = some key → env.geocode loc = some ld →
      (handle_get_flights_by_location env
        [("location", PyVal.str loc), ("radius", PyVal.int radius),
         ("limit", PyVal.int limit)]).2 =
        [NetCall.geo loc, NetCall.flightReq ⟨key, limit⟩]) :=
  ⟨fun env loc ld days ihr hloc hg => weather_trace env loc ld days ihr hloc hg,
   fun env loc key ld radius limit hloc hk hg =>
     flights_trace env loc key ld radius limit hloc hk hg⟩

/-- C4 witness: both parts of the amended theorem applied at concrete
out-of-range values (`days = 100`, `limit = 999`, `radius = 9999`). -/
theorem c4_witness :
    "Oslo" ≠ "" ∧ env1.geocode "Oslo" = some oslo ∧ env1.apiKey = some "k" ∧
    (handle_get_weather env1
      [("location", PyVal.str "Oslo"), ("days", PyVal.int 100),
       ("include_hourly", PyVal.bool false)]).2 =
      [NetCall.geo "Oslo", NetCall.weatherReq ⟨oslo.latitude, oslo.longitude, 100, false⟩] ∧
    (handle_get_flights_by_location env1
      [("location", PyVal.str "Oslo"), ("radius", PyVal.int 9999),
       ("limit", PyVal.int 999)]).2 =
      [NetCall.geo "Oslo", NetCall.flightReq ⟨"k", 999⟩] :=
  ⟨by decide, rfl, rfl,
   c4_no_bounds_validation.1 env1 "Oslo" oslo 100 false (by decide) rfl,
   c4_no_bounds_validation.2 env1 "Oslo" "k" oslo 9999 999 (by decide) rfl rfl⟩

/-- C5, counterexample: the formatters are not total and do not always
omit absent fields.  `format_weather_response` raises `IndexError` when
`daily.time` has two entries but an optional daily array is absent, and
`format_flight_response` renders an absent departure/arrival airport with
the placeholder `"Unknown"` instead of omitting the route line. -/
theorem c5_counterexample :
    format_weather_response wd0 "Oslo" "" false =
      Except.error "list index out of range" ∧
    hasSub "Unknown".data (format_flight_response fd0 "Oslo" "" 59.91 10.75 100).data =
      true :=
  ⟨rfl, by decide⟩

/-- C5 (amended): `format_weather_response` never fails when each optional
daily array (defaulted to `[None]` when absent) is at least as long as
`daily.time` — in particular a missing optional array is harmless only
when at most one day is present; and in the per-flight rendering, absent
departure/arrival airports are rendered with the `"Unknown"` placeholder
in the always-emitted route line rather than the line being omitted.
Other absent optional sub-fields are omitted without exception. -/
theorem c5_formatter_domains :
    (∀ (wd : WeatherData) (city country : String) (ihr : Bool),
      dailyAligned (wd.daily.getD default) →
      ∃ s, format_weather_response wd city country ihr = .ok s) ∧
    (∀ (i : Nat) (f : FlightRec), f.departure.airport = none →
      f.arrival.airport = none →
      hasSub "Route: Unknown â†’ Unknown\n".data
        (renderFlightEntry i f).data = true) := by
  constructor
  · exact fun wd city country ihr h => format_weather_ok wd city country ihr h
  · intro i f hdep harr
    have hroute : "  ðŸ›£ï¸ Route: " ++
        (f.departure.airport.getD "Unknown") ++ " â†’ " ++
        (f.arrival.airport.getD "Unknown") ++ "\n" =
        "  ðŸ›£ï¸ Route: Unknown â†’ Unknown\n" := by
      rw [hdep, harr]; rfl
    unfold renderFlightEntry
    rw [hroute]
    simp only [string_data_append]
    apply hasSub_append
    apply hasSub_append
    apply hasSub_append_right
    decide

/-- C5 witness: the amended theorem applied to the all-absent payloads. -/
theorem c5_witness :
    dailyAligned ((⟨none, none⟩ : WeatherData).daily.getD default) ∧
    (∃ s, format_weather_response ⟨none, none⟩ "Oslo" "" false = .ok s) ∧
    (default : FlightRec).departure.airport = none ∧
    hasSub "Route: Unknown â†’ Unknown\n".data
      (renderFlightEntry 0 default).data = true :=
  ⟨by decide, c5_formatter_domains.1 ⟨none, none⟩ "Oslo" "" false (by decide), rfl,
   c5_formatter_domains.2 0 default rfl rfl⟩

/-- C6: the calculator rejects any expression containing a character
outside the whitelist with the invalid-characters error block and no
evaluation; `"2 + 3 * 4"` evaluates to the success block containing
`= 14`; `"DROP TABLE"` is rejected; and any evaluation error (such as
division by zero) is caught and rendered as a text error, never
propagated. -/
theorem c6_calculator_contract :
    (∀ e : String, (e.data.all (fun c => allowed_chars.contains c)) = false →
      handle_calculator [("expression", PyVal.str e)] =
        [textContent "Error: Expression contains invalid characters"]) ∧
    call_tool env0 "calculator" [("expression", PyVal.str "2 + 3 * 4")] =
      .ok ([textContent "Result: 2 + 3 * 4 = 14"], []) ∧
    call_tool env0 "calculator" [("expression", PyVal.str "DROP TABLE")] =
      .ok ([textContent "Error: Expression contains invalid characters"], []) ∧
    (∀ (e msg : String), e ≠ "" →
      (e.data.all (fun c => allowed_chars.contains c)) = true →
      pyEval e = .error msg →
      handle_calculator [("expression", PyVal.str e)] =
        [textContent ("Error calculating \x27" ++ e ++ "\x27: " ++ msg)]) := by
  refine ⟨?_, rfl, rfl, ?_⟩
  · intro e h
    have he : e ≠ "" := by
      intro h0
      subst h0
      simp at h
    have e1 : getStr [("expression", PyVal.str e)] "expression" "" = e := rfl
    simp only [handle_calculator, e1, h]
    rw [if_neg he]
    rfl
  · intro e msg he hw hp
    have e1 : getStr [("expression", PyVal.str e)] "expression" "" = e := rfl
    simp only [handle_calculator, e1, hw, hp]
    rw [if_neg he]
    rfl

/-- C6 witness: the universal parts applied at `"DROP TABLE"` (whitelist
violation) and `"1/0"` (caught division by zero). -/
theorem c6_witness :
    (("DROP TABLE".data.all (fun c => allowed_chars.contains c)) = false ∧
     handle_calculator [("expression", PyVal.str "DROP TABLE")] =
       [textContent "Error: Expression contains invalid characters"]) ∧
    ("1/0" ≠ "" ∧ ("1/0".data.all (fun c => allowed_chars.contains c)) = true ∧
     pyEval "1/0" = .error "division by zero" ∧
     handle_calculator [("expression", PyVal.str "1/0")] =
       [textContent "Error calculating \x271/0\x27: division by zero"]) := by
  refine ⟨⟨by decide, c6_calculator_contract.1 "DROP TABLE" (by decide)⟩,
    ⟨by decide, by decide, rfl, ?_⟩⟩
  exact c6_calculator_contract.2.2.2 "1/0" "division by zero" (by decide) (by decide) rfl

/-- C7: on `"Hi. Bye!"` the analyzer reports word count 2, sentence count
2 and average 1.0 (shown in the full output block); in general the
sentence count is the number of `.`, `!`, `?` characters, every
whitespace-delimited token counted by the word count is non-empty and
whitespace-free, and the average divides the word count by
`max(sentence count, 1)`. -/
theorem c7_text_analyzer :
    call_tool env0 "text_analyzer" [("text", PyVal.str "Hi. Bye!")] =
      .ok ([textContent ("Text Analysis Results:\n- Character count: 8\n" ++
        "- Character count (no spaces): 7\n- Word count: 2\n- Sentence count: 2\n" ++
        "- Paragraph count: 1\n- Average words per sentence: 1.0\n")], []) ∧
    (∀ t : String, sentence_count t =
      (t.data.filter (fun c => c == '.' || c == '!' || c == '?')).length) ∧
    (∀ t : String, (pySplit t).all
      (fun w => !(w.data.isEmpty) && w.data.all (fun c => !(isPyWhitespace c))) = true) ∧
    (∀ t : String, avg_words t =
      (word_count t : Rat) / ((max (sentence_count t) 1 : Nat) : Rat)) := by
  refine ⟨rfl, ?_, ?_, fun t => rfl⟩
  · intro t
    unfold sentence_count
    induction t.data with
    | nil => rfl
    | cons c cs ih =>
        simp only [List.count_cons, List.filter_cons]
        by_cases h1 : c = '.'
        · subst h1; simp [ih]; omega
        · by_cases h2 : c = '!'
          · subst h2; simp [ih]; omega
          · by_cases h3 : c = '?'
            · subst h3; simp [ih]; omega
            · simp [h1, h2, h3, ih]
  · have goodTok : ∀ acc : List Char, acc.isEmpty = false →
        acc.all (fun c => !(isPyWhitespace c)) = true →
        (!((String.mk acc.reverse).data.isEmpty) &&
          (String.mk acc.reverse).data.all (fun c => !(isPyWhitespace c))) = true := by
      intro acc hne hacc
      have hr : acc.reverse.isEmpty = false := by
        rcases acc with _ | ⟨a, as⟩
        · simp at hne
        · simp [List.isEmpty_iff]
      rw [Bool.and_eq_true]
      refine ⟨by simp [hr], ?_⟩
      simp only [List.all_eq_true] at hacc ⊢
      intro x hx
      exact hacc x (List.mem_reverse.mp hx)
    have main : ∀ (cs acc : List Char),
        acc.all (fun c => !(isPyWhitespace c)) = true →
        (splitWs acc cs).all
          (fun w => !(w.data.isEmpty) && w.data.all (fun c => !(isPyWhitespace c))) = true := by
      intro cs
      induction cs with
      | nil =>
          intro acc hacc
          simp only [splitWs]
          split
          · rfl
          · rename_i hne
            have hne2 : acc.isEmpty = false := by
              rcases h2 : acc.isEmpty with _ | _
              · rfl
              · exact absurd h2 hne
            simp only [List.all_cons, List.all_nil, Bool.and_true]
            exact goodTok acc hne2 hacc
      | cons c t ih =>
          intro acc hacc
          simp only [splitWs]
          by_cases hw : isPyWhitespace c = true
          · simp only [hw, if_true]
            split
            · exact ih [] rfl
            · rename_i hne
              have hne2 : acc.isEmpty = false := by
                rcases h2 : acc.isEmpty with _ | _
                · rfl
                · exact absurd h2 hne
              simp only [List.all_cons, Bool.and_eq_true]
              refine ⟨?_, ih [] rfl⟩
              have hg := goodTok acc hne2 hacc
              simpa [Bool.and_eq_true] using hg
          · have hw2 : isPyWhitespace c = false := by
              rcases h2 : isPyWhitespace c with _ | _
              · rfl
              · exact absurd h2 hw
            simp only [hw2, Bool.false_eq_true, if_false]
            exact ih (c :: acc) (by simp [hacc, hw2])
    intro t
    exact main t.data [] rfl

/-- C8, counterexample: a flights (or airports) request with an absent
location, made while the credential is absent, returns the
no-location-provided block, not the `MissingCredential` block — so "every
request while the credential is absent yields the MissingCredential
block" fails at this input (though still without any network call). -/
theorem c8_counterexample :
    env0.apiKey = none ∧
    handle_get_flights_by_location env0 [] =
      ([textContent "Error: No location provided"], []) ∧
    handle_get_airport_info env0 [] =
      ([textContent "Error: No location provided"], []) ∧
    "Error: No location provided" ≠ missingKeyMsg :=
  ⟨rfl, rfl, rfl, by decide⟩

/-- C8 (amended): for every flights or airports request with a non-empty
location string, made while the credential is absent from the process
environment, the handler returns exactly the `MissingCredential` error
block with an empty network trace — no network call at all, not even
geocoding; the absence is a per-call condition read from the environment
at call time, and the handler returns normally. -/
theorem c8_missing_credential (env : Env) (args : Args) (hk : env.apiKey = none)
    (hloc : getStr args "location" "" ≠ "") :
    handle_get_flights_by_location env args = ([textContent missingKeyMsg], []) ∧
    handle_get_airport_info env args = ([textContent missingKeyMsg], []) :=
  ⟨flights_missing_key env args hk hloc, airports_missing_key env args hk hloc⟩

/-- C8 witness: the amended theorem applied in the credential-less
environment with location `"Oslo"`. -/
theorem c8_witness :
    env0.apiKey = none ∧
    getStr [("location", PyVal.str "Oslo")] "location" "" ≠ "" ∧
    handle_get_flights_by_location env0 [("location", PyVal.str "Oslo")] =
      ([textContent missingKeyMsg], []) ∧
    handle_get_airport_info env0 [("location", PyVal.str "Oslo")] =
      ([textContent missingKeyMsg], []) :=
  ⟨rfl, by decide,
   (c8_missing_credential env0 [("location", PyVal.str "Oslo")] rfl (by decide)).1,
   (c8_missing_credential env0 [("location", PyVal.str "Oslo")] rfl (by decide)).2⟩

/-- C9: every tool name in the catalog dispatches to a handler that
returns exactly one text content block, for every environment and
argument map — on success and error paths alike, the composite handler
included (it concatenates its sub-steps into one string). -/
theorem c9_single_block (env : Env) (name : String) (args : Args)
    (h : name ∈ toolNames) :
    ∃ b tr, call_tool env name args = .ok ([b], tr) := by
  simp only [toolNames, List.mem_cons, List.not_mem_nil, or_false] at h
  rcases h with rfl | rfl | rfl | rfl | rfl | rfl | rfl
  · obtain ⟨b, hb⟩ := handle_calculator_single args
    exact ⟨b, [], by rw [show call_tool env "calculator" args =
      .ok (handle_calculator args, []) from rfl, hb]⟩
  · obtain ⟨b, hb⟩ := handle_text_analyzer_single args
    exact ⟨b, [], by rw [show call_tool env "text_analyzer" args =
      .ok (handle_text_analyzer args, []) from rfl, hb]⟩
  · obtain ⟨b, hb⟩ := handle_list_files_single env args
    exact ⟨b, [], by rw [show call_tool env "list_files" args =
      .ok (handle_list_files env args, []) from rfl, hb]⟩
  · obtain ⟨b, tr, hb⟩ := handle_get_weather_single env args
    exact ⟨b, tr, by rw [show call_tool env "get_weather" args =
      .ok (handle_get_weather env args) from rfl, hb]⟩
  · obtain ⟨b, tr, hb⟩ := handle_get_flights_single env args
    exact ⟨b, tr, by rw [show call_tool env "get_flights_by_location" args =
      .ok (handle_get_flights_by_location env args) from rfl, hb]⟩
  · obtain ⟨b, tr, hb⟩ := handle_get_airport_single env args
    exact ⟨b, tr, by rw [show call_tool env "get_airport_info" args =
      .ok (handle_get_airport_info env args) from rfl, hb]⟩
  · obtain ⟨b, tr, hb⟩ := handle_get_location_data_single env args
    exact ⟨b, tr, by rw [show call_tool env "get_location_data" args =
      .ok (handle_get_location_data env args) from rfl, hb]⟩

/-- C9 witness: the single-block theorem applied to the composite tool in
the successful environment. -/
theorem c9_witness :
    "get_location_data" ∈ toolNames ∧
    ∃ b tr, call_tool env1 "get_location_data" [("location", PyVal.str "Oslo")] =
      .ok ([b], tr) :=
  ⟨by decide, c9_single_block env1 "get_location_data"
    [("location", PyVal.str "Oslo")] (by decide)⟩

/-- C10: the whitelist admits the multi-character operators `**` and `//`
(each spelled with whitelisted characters), so exponentiation and floor
division are evaluated rather than rejected: `"2**3"` yields the success
block `= 8` and `"10 // 3"` yields `= 3`. -/
theorem c10_multichar_operators :
    ("2**3".data.all (fun c => allowed_chars.contains c)) = true ∧
    call_tool env0 "calculator" [("expression", PyVal.str "2**3")] =
      .ok ([textContent "Result: 2**3 = 8"], []) ∧
    ("10 // 3".data.all (fun c => allowed_chars.contains c)) = true ∧
    call_tool env0 "calculator" [("expression", PyVal.str "10 // 3")] =
      .ok ([textContent "Result: 10 // 3 = 3"], []) :=
  ⟨by decide, rfl, by decide, rfl⟩
